import Mathlib

/-!
Verification of the credential-resolution core of the youtube-autopilot
repository against its specification.

The definitions below are a shallow embedding of the Python sources under
`src/scripts/`.  Filesystem contents (the configuration directory) are a
record `ConfigsDir`; remote/interactive effects (token refresh, OAuth flow,
service-account parsing, API requests) are supplied by an `Oracle` record;
every function returns, alongside its result, the list of observable events
it performed (`Ev`) and the updated configuration directory, so that
call-count and persistence claims can be stated as facts about event traces
and store states.  `pickle.load` of a present token file is modelled as
always succeeding; path resolution is modelled by per-file fields of
`ConfigsDir`.
-/

/-- A persisted OAuth-style credential, as observed by the clients:
`valid`, `expired` and `refresh_token` are the three attributes the Python
code branches on (`creds.valid`, `creds.expired`, `creds.refresh_token`);
`blob` stands for the serialized access material. -/
structure Cred where
  valid : Bool
  expired : Bool
  refreshToken : Bool
  blob : String
deriving DecidableEq, Repr

/-- The configuration directory (`configs/`): which well-known files exist
and what they hold. `tokenPickle` is the content of `token.pickle` (none =
absent), `apiKeyFile` the raw text of `api_key.txt`, `clientSecrets` and
`serviceAccountFile` the existence of `client_secrets.json` and
`service_account.json`. -/
structure ConfigsDir where
  clientSecrets : Bool
  tokenPickle : Option Cred
  apiKeyFile : Option String
  serviceAccountFile : Bool
deriving DecidableEq, Repr

/-- Observable events of one resolution: a token refresh round trip
(`creds.refresh(Request())`), an interactive OAuth acquisition flow
(`run_local_server` / `fetch_token`), a write of a credential blob to the
store (`pickle.dump` / `f.write`), and the remote execution of an API
request (`request.execute()` / `next_chunk()`). -/
inductive Ev where
  | refreshCall
  | flowCall
  | storeWrite (blob : String)
  | apiRequest
deriving DecidableEq, Repr

/-- Environment behaviour: outcome of a refresh round trip (none = refresh
denied, the call raises), of the interactive OAuth flow (none = flow fails
or is aborted), of parsing the service-account file (none = exception), and
the remote outcome of an executed upload request. -/
structure Oracle where
  refreshResult : Cred → Option Cred
  flowResult : Option Cred
  saResult : Option Cred
  uploadOk : Bool

/-- Python truthiness of an optional string: `None` and `""` are falsy. -/
def pyTruthy : Option String → Bool
  | none => false
  | some s => s ≠ ""

/-- Python `str.strip()`: drop leading and trailing whitespace. -/
def pyStrip (s : String) : String :=
  ⟨((s.data.dropWhile Char.isWhitespace).reverse.dropWhile
      Char.isWhitespace).reverse⟩

/- ### youtube_client_v2.py -/

/-- Python `YouTubeClientV2._try_service_account_auth`: if `service_account.json`
is absent return `None`; otherwise parse it (`from_service_account_file`,
a local operation), returning `None` on exception. -/
def tryServiceAccountAuthV2 (d : ConfigsDir) (o : Oracle) :
    Option Cred × List Ev × ConfigsDir :=
  if !d.serviceAccountFile then (none, [], d)
  else (o.saResult, [], d)

/-- Acquisition tail of `YouTubeClientV2._try_oauth_auth` (the
`if not creds:` block): if `client_secrets.json` is absent return `None`;
otherwise run the OAuth flow; on success save the credentials to
`token.pickle` and return them, on exception return `None`. -/
def v2Acquire (d : ConfigsDir) (o : Oracle) (evs : List Ev) :
    Option Cred × List Ev × ConfigsDir :=
  if !d.clientSecrets then (none, evs, d)
  else
    match o.flowResult with
    | some c => (some c, evs ++ [Ev.flowCall, Ev.storeWrite c.blob],
                 { d with tokenPickle := some c })
    | none => (none, evs ++ [Ev.flowCall], d)

/-- Python `YouTubeClientV2._try_oauth_auth`: load `token.pickle` if present; if
the credentials are valid return them; if expired with a refresh token,
refresh once (on success return the refreshed credentials *without*
saving them; on failure the credentials are dropped and the flow is run);
credentials that are invalid but not refreshable are returned as loaded
(the `if not creds:` guard sees a truthy object and skips acquisition). -/
def tryOauthAuthV2 (d : ConfigsDir) (o : Oracle) :
    Option Cred × List Ev × ConfigsDir :=
  match d.tokenPickle with
  | some c =>
    if c.valid then (some c, [], d)
    else if c.expired && c.refreshToken then
      match o.refreshResult c with
      | some c2 => (some c2, [Ev.refreshCall], d)
      | none => v2Acquire d o [Ev.refreshCall]
    else (some c, [], d)
  | none => v2Acquire d o []

/-- Strategies of `YouTubeClientV2`. -/
inductive V2Method where
  | oauth
  | serviceAccount
deriving DecidableEq, Repr

/-- Result of `YouTubeClientV2._authenticate`: the credentials, the
strategies whose try-function was invoked in order, the events, and the
updated directory. -/
structure V2Result where
  creds : Option Cred
  attempts : List V2Method
  events : List Ev
  dir : ConfigsDir
deriving DecidableEq, Repr

/-- Python `YouTubeClientV2._authenticate`: in `"auto"` mode try the service
account first and fall back to OAuth only when it yields no credentials;
`"service_account"` and `"oauth"` run the single strategy; any other
method string raises `ValueError`. -/
def authenticateV2 (method : String) (d : ConfigsDir) (o : Oracle) :
    Except String V2Result :=
  if method = "auto" then
    let (sa, e1, d1) := tryServiceAccountAuthV2 d o
    match sa with
    | some c => .ok ⟨some c, [V2Method.serviceAccount], e1, d1⟩
    | none =>
      let (oa, e2, d2) := tryOauthAuthV2 d1 o
      .ok ⟨oa, [V2Method.serviceAccount, V2Method.oauth], e1 ++ e2, d2⟩
  else if method = "service_account" then
    let (sa, e1, d1) := tryServiceAccountAuthV2 d o
    .ok ⟨sa, [V2Method.serviceAccount], e1, d1⟩
  else if method = "oauth" then
    let (oa, e1, d1) := tryOauthAuthV2 d o
    .ok ⟨oa, [V2Method.oauth], e1, d1⟩
  else .error ("Invalid auth_method: " ++ method)

/-- Strategies tried by `YouTubeClientV2._authenticate` in `"auto"` mode,
in order (the `"auto"` branch never raises). -/
def v2AutoAttempts (d : ConfigsDir) (o : Oracle) : List V2Method :=
  match authenticateV2 "auto" d o with
  | .ok r => r.attempts
  | .error _ => []

/- ### youtube_client.py -/

/-- Acquisition branch of `YouTubeClient._get_credentials` (the `else:`
arm): if `client_secrets.json` is absent, print an error and return `None`
(nothing is saved); otherwise run the local-server flow — unguarded, so a
flow failure propagates (`Except.error`) — and on success save the
credentials to `token.pickle`. -/
def clientAcquire (d : ConfigsDir) (o : Oracle) :
    Except Unit (Option Cred × List Ev × ConfigsDir) :=
  if !d.clientSecrets then .ok (none, [], d)
  else
    match o.flowResult with
    | some c => .ok (some c, [Ev.flowCall, Ev.storeWrite c.blob],
                     { d with tokenPickle := some c })
    | none => .error ()

/-- Python `YouTubeClient._get_credentials`: load `token.pickle` if present; valid
credentials are returned untouched; expired refreshable credentials are
refreshed — the call is *not* wrapped in `try`, so a denied refresh raises
out of `_get_credentials` (`Except.error`) — and the refreshed credentials
are saved; otherwise the interactive flow runs and its result is saved. -/
def getCredentials (d : ConfigsDir) (o : Oracle) :
    Except Unit (Option Cred × List Ev × ConfigsDir) :=
  match d.tokenPickle with
  | some c =>
    if c.valid then .ok (some c, [], d)
    else if c.expired && c.refreshToken then
      match o.refreshResult c with
      | some c2 => .ok (some c2, [Ev.refreshCall, Ev.storeWrite c2.blob],
                        { d with tokenPickle := some c2 })
      | none => .error ()
    else clientAcquire d o
  | none => clientAcquire d o

/- ### youtube_client_full.py -/

/-- Python `YouTubeClientFull.authenticate`: restore-only — load `token.pickle`
if present; valid credentials are used directly; expired refreshable
credentials are refreshed once and the refreshed credentials saved; a
refresh failure is caught and reported as `False`; there is no acquisition
flow in this client. -/
def authenticateFull (d : ConfigsDir) (o : Oracle) :
    Bool × List Ev × ConfigsDir :=
  match d.tokenPickle with
  | some c =>
    if c.valid then (true, [], d)
    else if c.expired && c.refreshToken then
      match o.refreshResult c with
      | some c2 => (true, [Ev.refreshCall, Ev.storeWrite c2.blob],
                    { d with tokenPickle := some c2 })
      | none => (false, [Ev.refreshCall], d)
    else (false, [], d)
  | none => (false, [], d)

/- ### youtube_autopilot.py -/

/-- Authentication methods of `YouTubeAutopilot` (`AuthMethod` enum). -/
inductive APMethod where
  | oauth
  | api_key
  | service_account
  | auto
deriving DecidableEq, Repr

/-- Python `AuthMethod(value)`: enum lookup by value string, raising `ValueError`
for a string outside the enum (performed by `_load_config` when the
configured `auth_method` is a string). -/
def APMethod.ofString (s : String) : Except String APMethod :=
  if s = "oauth" then .ok .oauth
  else if s = "api_key" then .ok .api_key
  else if s = "service_account" then .ok .service_account
  else if s = "auto" then .ok .auto
  else .error (s ++ " is not a valid AuthMethod")

/-- Configuration fields of `YouTubeConfig` the resolver reads (only
`api_key` matters here; `credentials_path` is the `ConfigsDir` itself and
`service_account_path` defaults into it). -/
structure APConfig where
  apiKey : Option String
deriving Repr

/-- Ordered method list built by `_initialize_services`: the fixed
preference order for `AUTO`, else the single configured method. -/
def authMethodsFor : APMethod → List APMethod
  | .auto => [.oauth, .api_key, .service_account]
  | m => [m]

/-- Interactive tail of `YouTubeAutopilot._initialize_oauth`: run the
manual-code flow (`fetch_token`); an exception is caught by the method's
outer handler, which returns `False`; on success the credentials are
saved to `token.pickle` and the services are built. -/
def apOauthFlow (d : ConfigsDir) (o : Oracle) (evs : List Ev) :
    Bool × List Ev × ConfigsDir :=
  match o.flowResult with
  | some c => (true, evs ++ [Ev.flowCall, Ev.storeWrite c.blob],
               { d with tokenPickle := some c })
  | none => (false, evs ++ [Ev.flowCall], d)

/-- Python `YouTubeAutopilot._initialize_oauth`: fail when `client_secrets.json`
is absent (before touching the token); otherwise load `token.pickle`;
valid credentials are used as-is (no save); expired refreshable
credentials are refreshed once and — the save sits outside the
acquisition guard — the refreshed credentials are saved; a refresh failure
drops the credentials and runs the flow; credentials that are invalid but
not refreshable skip the flow (truthy object) and are re-saved as-is. -/
def initializeOauthAP (d : ConfigsDir) (o : Oracle) :
    Bool × List Ev × ConfigsDir :=
  if !d.clientSecrets then (false, [], d)
  else
    match d.tokenPickle with
    | some c =>
      if c.valid then (true, [], d)
      else if c.expired && c.refreshToken then
        match o.refreshResult c with
        | some c2 => (true, [Ev.refreshCall, Ev.storeWrite c2.blob],
                      { d with tokenPickle := some c2 })
        | none => apOauthFlow d o [Ev.refreshCall]
      else (true, [Ev.storeWrite c.blob], { d with tokenPickle := some c })
    | none => apOauthFlow d o []

/-- Python `YouTubeAutopilot._initialize_api_key`: take `config.api_key` if
truthy, else the stripped content of `api_key.txt` when that file exists;
succeed iff the resulting key is truthy (building the service with a
developer key is a local operation). -/
def initializeApiKeyAP (cfg : APConfig) (d : ConfigsDir) :
    Bool × List Ev × ConfigsDir :=
  let k :=
    if pyTruthy cfg.apiKey then cfg.apiKey
    else
      match d.apiKeyFile with
      | some s => some (pyStrip s)
      | none => cfg.apiKey
  (pyTruthy k, [], d)

/-- Python `YouTubeAutopilot._initialize_service_account`: fail when the
service-account file is absent; otherwise parse it locally, failing on
exception. -/
def initializeServiceAccountAP (d : ConfigsDir) (o : Oracle) :
    Bool × List Ev × ConfigsDir :=
  if !d.serviceAccountFile then (false, [], d)
  else (o.saResult.isSome, [], d)

/-- One iteration body of the `_initialize_services` loop: dispatch on the
method; `AUTO` matches no branch of the `if`/`elif` chain, so the body
does nothing and the method does not succeed. -/
def tryMethodAP (cfg : APConfig) (o : Oracle) (m : APMethod) (d : ConfigsDir) :
    Bool × List Ev × ConfigsDir :=
  match m with
  | .oauth => initializeOauthAP d o
  | .api_key => initializeApiKeyAP cfg d
  | .service_account => initializeServiceAccountAP d o
  | .auto => (false, [], d)

/-- Outcome of the `_initialize_services` loop: which method succeeded (if
any), the methods whose initializer ran, in order, the events, and the
final directory. -/
structure InitOutcome where
  success : Option APMethod
  attempted : List APMethod
  events : List Ev
  dir : ConfigsDir
deriving DecidableEq, Repr

/-- The `for method in auth_methods:` loop of `_initialize_services`:
run each method's initializer in order and `break` on the first success
(per-method exceptions are already converted to `False` inside the
initializers, matching the loop's `except ... continue`). -/
def initLoop (cfg : APConfig) (o : Oracle) :
    List APMethod → ConfigsDir → InitOutcome
  | [], d => ⟨none, [], [], d⟩
  | m :: rest, d =>
    let t := tryMethodAP cfg o m d
    if t.1 then ⟨some m, [m], t.2.1, t.2.2⟩
    else
      let r := initLoop cfg o rest t.2.2
      ⟨r.success, m :: r.attempted, t.2.1 ++ r.events, r.dir⟩

/-- Python `YouTubeAutopilot._initialize_services`: build the method list, run the
loop, and when no method set up a service raise the bare
`Exception("Failed to initialize any authentication method")` — the only
data the failure carries is this fixed message string. -/
def initializeServices (cfg : APConfig) (method : APMethod) (d : ConfigsDir)
    (o : Oracle) : Except String InitOutcome :=
  let r := initLoop cfg o (authMethodsFor method) d
  match r.success with
  | some _ => .ok r
  | none => .error "Failed to initialize any authentication method"

/-- Result of `YouTubeAutopilot.upload_video`: either the early error dict
(`"YouTube service not available"`), returned before any request object is
built, or the remote outcome of the executed insert request. -/
inductive UploadOutcome where
  | serviceUnavailable
  | executed (ok : Bool)
deriving DecidableEq, Repr

/-- Python `YouTubeAutopilot.upload_video`: the only pre-network check is that a
service object exists; with a service the insert request is built and
executed remotely (one API request), whatever credential kind backs the
service — there is no capability check. -/
def uploadVideoAP (hasService : Bool) (o : Oracle) :
    UploadOutcome × List Ev :=
  if !hasService then (.serviceUnavailable, [])
  else (.executed o.uploadOk, [Ev.apiRequest])

/- ### Credential store writes (all six clients) -/

/-- A file-system operation: open-for-write truncates/creates the file,
write fills it with the data, rename moves a file over another. -/
inductive FsOp where
  | openWrite (path : String)
  | writeData (path : String) (data : String)
  | rename (src dst : String)
deriving DecidableEq, Repr

/-- Whether an operation is a rename. -/
def FsOp.isRename : FsOp → Bool
  | .rename _ _ => true
  | _ => false

/-- Whether an operation writes directly at `p` (opens or fills it). -/
def FsOp.writesAt (p : String) : FsOp → Bool
  | .openWrite q => q = p
  | .writeData q _ => q = p
  | .rename _ _ => false

/-- Effect of one operation on a file system (path ↦ content). -/
def runOp (fs : String → Option String) : FsOp → String → Option String
  | .openWrite p => fun q => if q = p then some "" else fs q
  | .writeData p d => fun q => if q = p then some d else fs q
  | .rename s t => fun q => if q = t then fs s else if q = s then none else fs q

/-- Effect of a sequence of operations, in order. -/
def runOps (fs : String → Option String) : List FsOp → String → Option String
  | [] => fs
  | op :: ops => runOps (runOp fs op) ops

/-- The operations every credential save in the repository performs
(`with open(token_file, "wb") as token: pickle.dump(creds, token)` in
youtube_client.py, youtube_client_v2.py, youtube_client_full.py,
youtube_oauth_simple.py, youtube_autopilot.py, and
`with open(api_key_file, "w") as f: f.write(api_key)` in
youtube_client_apikey.py): open the well-known path itself for writing,
then write the blob.  No temporary file, no rename. -/
def saveCredentialOps (path blob : String) : List FsOp :=
  [FsOp.openWrite path, FsOp.writeData path blob]

/-- Modelled from the spec: "Persistence is a single atomic overwrite per
strategy (write to temp, rename)" — a save is temp-with-rename for `path`
when no operation writes directly at `path` and the final operation is a
rename onto `path`. -/
def isTempRenameSave (ops : List FsOp) (path : String) : Bool :=
  ops.all (fun op => ! FsOp.writesAt path op) &&
    (match ops.getLast? with
     | some (FsOp.rename _ t) => t = path
     | _ => false)

/- ### youtube_client_apikey.py -/

/-- Python `save_api_key`: write the key string to `api_key.txt` as given. -/
def save_api_key (d : ConfigsDir) (key : String) : ConfigsDir :=
  { d with apiKeyFile := some key }

/-- Python `YouTubeClientAPIKey._load_api_key`: read `api_key.txt` when present
and return its content with surrounding whitespace stripped
(`f.read().strip()`). -/
def load_api_key (d : ConfigsDir) : Option String :=
  d.apiKeyFile.map (fun s => pyStrip s)

/- ### Concrete fixtures for witnesses and counterexamples -/

/-- An expired credential carrying refresh material. -/
def expiredCred : Cred := ⟨false, true, true, "expired-blob"⟩

/-- The credential a successful refresh round trip produces. -/
def refreshedCred : Cred := ⟨true, false, true, "refreshed-blob"⟩

/-- The credential a successful interactive flow produces. -/
def flowCred : Cred := ⟨true, false, true, "flow-blob"⟩

/-- A valid, non-expired cached credential. -/
def validCred : Cred := ⟨true, false, true, "valid-blob"⟩

/-- A parsed service-account credential. -/
def saCred : Cred := ⟨true, false, false, "sa-blob"⟩

/-- An empty configuration directory: no strategy file exists. -/
def emptyDir : ConfigsDir := ⟨false, none, none, false⟩

/-- A directory containing only `api_key.txt`. -/
def apiKeyOnlyDir : ConfigsDir := ⟨false, none, some "AIzaTestKey", false⟩

/-- A directory containing only `service_account.json`. -/
def saOnlyDir : ConfigsDir := ⟨false, none, none, true⟩

/-- A directory containing only `client_secrets.json`. -/
def secretsOnlyDir : ConfigsDir := ⟨true, none, none, false⟩

/-- A directory with `client_secrets.json` and an expired persisted token. -/
def expiredTokenDir : ConfigsDir := ⟨true, some expiredCred, none, false⟩

/-- A directory with `client_secrets.json` and a valid persisted token. -/
def validTokenDir : ConfigsDir := ⟨true, some validCred, none, false⟩

/-- An environment in which every remote or interactive step fails. -/
def oracle0 : Oracle := ⟨fun _ => none, none, none, false⟩

/-- An environment in which a refresh succeeds (yielding `refreshedCred`). -/
def oracleRefreshOk : Oracle := ⟨fun _ => some refreshedCred, none, none, false⟩

/-- An environment in which the refresh is denied but the interactive flow
would succeed (yielding `flowCred`). -/
def oracleDenyThenFlow : Oracle := ⟨fun _ => none, some flowCred, none, false⟩

/-- An environment in which the service-account file parses to `saCred`. -/
def oracleSA : Oracle := ⟨fun _ => none, none, some saCred, false⟩

/-- An autopilot configuration with no inline API key. -/
def cfg0 : APConfig := ⟨none⟩

/- ### Theorems -/

/-- C1: for every configured strategy ordering, the `_initialize_services`
loop stops at the first strategy that succeeds — the list of strategies
whose initializer ran ends at the winning strategy and is a prefix of the
configured ordering, so the initializers of all later strategies are never
invoked in that resolve call. -/
theorem initLoop_stops_at_first_success (cfg : APConfig) (o : Oracle)
    (ms : List APMethod) (d : ConfigsDir) (m : APMethod)
    (h : (initLoop cfg o ms d).success = some m) :
    (initLoop cfg o ms d).attempted.getLast? = some m ∧
    ∃ post, (initLoop cfg o ms d).attempted ++ post = ms := by
  induction ms generalizing d with
  | nil => simp [initLoop] at h
  | cons a rest ih =>
    by_cases hok : (tryMethodAP cfg o a d).1
    · simp only [initLoop, hok, if_true] at h ⊢
      refine ⟨by simpa using h, rest, rfl⟩
    · simp only [initLoop, hok, if_false, Bool.false_eq_true] at h ⊢
      obtain ⟨h1, post, h2⟩ := ih (tryMethodAP cfg o a d).2.2 h
      cases hA : (initLoop cfg o rest (tryMethodAP cfg o a d).2.2).attempted with
      | nil => rw [hA] at h1; simp at h1
      | cons b bs =>
        rw [hA] at h1 h2
        exact ⟨by simpa [List.getLast?_cons_cons] using h1,
               post, by simpa using h2⟩

/-- Witness for C1: with auto ordering over a directory containing only an
API key, the API-key strategy wins, the attempted list ends there, and the
service-account strategy is never attempted. -/
theorem initLoop_stops_witness :
    (initLoop cfg0 oracle0 [APMethod.oauth, APMethod.api_key,
        APMethod.service_account] apiKeyOnlyDir).success = some APMethod.api_key ∧
    ((initLoop cfg0 oracle0 [APMethod.oauth, APMethod.api_key,
        APMethod.service_account] apiKeyOnlyDir).attempted.getLast?
          = some APMethod.api_key ∧
      ∃ post, (initLoop cfg0 oracle0 [APMethod.oauth, APMethod.api_key,
        APMethod.service_account] apiKeyOnlyDir).attempted ++ post
          = [APMethod.oauth, APMethod.api_key, APMethod.service_account]) :=
  ⟨by decide,
   initLoop_stops_at_first_success cfg0 oracle0 _ apiKeyOnlyDir APMethod.api_key
     (by decide)⟩

/-- A directory whose only strategy input is an `api_key.txt` with content
`k`. -/
def onlyKeyDir (k : String) : ConfigsDir := ⟨false, none, some k, false⟩

/-- The outcome of auto-resolution over `apiKeyOnlyDir`: a Static-Key
session (API-key strategy won, OAuth was attempted and failed first). -/
def apiKeyOutcome : InitOutcome :=
  ⟨some APMethod.api_key, [APMethod.oauth, APMethod.api_key], [], apiKeyOnlyDir⟩

/-- C2 counterexample: resolving over a directory containing only an API
key yields a Static-Key session, and `upload_video` on that session does
not fail fast — it executes the insert request remotely (one API-request
event), returning the remote failure; no capability error is raised before
the network call. -/
theorem upload_with_static_key_reaches_network :
    initializeServices cfg0 APMethod.auto apiKeyOnlyDir oracle0 = .ok apiKeyOutcome ∧
    uploadVideoAP apiKeyOutcome.success.isSome oracle0
      = (UploadOutcome.executed false, [Ev.apiRequest]) ∧
    (uploadVideoAP apiKeyOutcome.success.isSome oracle0).2 ≠ [] := by
  refine ⟨rfl, rfl, by decide⟩

/-- C2 amended: for every directory whose only strategy input is a
non-blank API key, auto-resolution produces a Static-Key session, and an
upload on that session is sent to the network (exactly one API request)
and ends with the remote outcome — the only fail-fast path in
`upload_video` is an absent service, never a capability check. -/
theorem upload_after_static_key_resolution (o : Oracle) (k : String)
    (h : pyStrip k ≠ "") :
    initializeServices cfg0 APMethod.auto (onlyKeyDir k) o
      = .ok ⟨some APMethod.api_key, [APMethod.oauth, APMethod.api_key], [],
             onlyKeyDir k⟩ ∧
    ∀ r, initializeServices cfg0 APMethod.auto (onlyKeyDir k) o = .ok r →
      uploadVideoAP r.success.isSome o
        = (UploadOutcome.executed o.uploadOk, [Ev.apiRequest]) := by
  have h1 : initializeServices cfg0 APMethod.auto (onlyKeyDir k) o
      = .ok ⟨some APMethod.api_key, [APMethod.oauth, APMethod.api_key], [],
             onlyKeyDir k⟩ := by
    simp [initializeServices, authMethodsFor, initLoop, tryMethodAP,
      initializeOauthAP, initializeApiKeyAP, pyTruthy, cfg0, onlyKeyDir, h]
  refine ⟨h1, fun r hr => ?_⟩
  rw [h1] at hr
  injection hr with h2
  subst h2
  simp [uploadVideoAP]

/-- Witness for the amended C2 at a concrete key. -/
theorem upload_after_static_key_resolution_witness :
    initializeServices cfg0 APMethod.auto (onlyKeyDir "AIzaTestKey") oracle0
      = .ok ⟨some APMethod.api_key, [APMethod.oauth, APMethod.api_key], [],
             onlyKeyDir "AIzaTestKey"⟩ :=
  (upload_after_static_key_resolution oracle0 "AIzaTestKey" (by decide)).1

/-- C3 counterexample: in `YouTubeClientV2` auto mode over a directory with
a parsable `service_account.json`, the first (and only) strategy attempted
is the service account — Delegated-Authorization (OAuth) is not the first
strategy attempted, contrary to the claim that it always is. -/
theorem v2_auto_first_attempt_not_oauth :
    v2AutoAttempts saOnlyDir oracleSA = [V2Method.serviceAccount] ∧
    (v2AutoAttempts saOnlyDir oracleSA).head? ≠ some V2Method.oauth := by
  refine ⟨by decide, by decide⟩

/-- C3 amended: `YouTubeAutopilot` auto mode uses the preference order
OAuth → API-key → Service-Account and always attempts OAuth first, but
`YouTubeClientV2` auto mode always attempts the service account first and
OAuth only second. -/
theorem auto_preference_orders (cfg : APConfig) (o : Oracle) (d : ConfigsDir) :
    authMethodsFor APMethod.auto
      = [APMethod.oauth, APMethod.api_key, APMethod.service_account] ∧
    (initLoop cfg o (authMethodsFor APMethod.auto) d).attempted.head?
      = some APMethod.oauth ∧
    (v2AutoAttempts d o).head? = some V2Method.serviceAccount := by
  refine ⟨rfl, ?_, ?_⟩
  · by_cases hok : (tryMethodAP cfg o APMethod.oauth d).1 <;>
      simp [initLoop, authMethodsFor, hok]
  · unfold v2AutoAttempts authenticateV2
    rcases htsa : tryServiceAccountAuthV2 d o with ⟨sa, e1, d1⟩
    rcases hoa : tryOauthAuthV2 d1 o with ⟨oa, e2, d2⟩
    cases sa <;> simp [htsa, hoa]

/-- C4 counterexample: over the empty configuration directory,
`_initialize_services` fails with the bare fixed-message exception; the
very same error value is produced when the failure causes differ (client
secrets present but the flow fails — a different per-strategy cause
profile, visible in the differing event traces), so the failure carries no
structured per-strategy causes, let alone three `ConfigurationMissing`
entries. -/
theorem no_strategy_failure_is_bare_exception :
    initializeServices cfg0 APMethod.auto emptyDir oracle0
      = .error "Failed to initialize any authentication method" ∧
    initializeServices cfg0 APMethod.auto secretsOnlyDir oracle0
      = initializeServices cfg0 APMethod.auto emptyDir oracle0 ∧
    (initLoop cfg0 oracle0 (authMethodsFor APMethod.auto) secretsOnlyDir).events
      ≠ (initLoop cfg0 oracle0 (authMethodsFor APMethod.auto) emptyDir).events := by
  refine ⟨rfl, rfl, by decide⟩

/-- C4 amended: whenever every strategy is skipped or fails, resolution
raises a generic exception carrying only the fixed message string
"Failed to initialize any authentication method" — no per-strategy error
causes are attached (diagnostics are only logged). -/
theorem exhausted_strategies_raise_fixed_message (cfg : APConfig) (o : Oracle)
    (d : ConfigsDir)
    (h : (initLoop cfg o (authMethodsFor APMethod.auto) d).success = none) :
    initializeServices cfg APMethod.auto d o
      = .error "Failed to initialize any authentication method" := by
  simp only [initializeServices]
  rw [h]

/-- Witness for the amended C4: the empty directory exhausts all three
strategies. -/
theorem exhausted_strategies_witness :
    initializeServices cfg0 APMethod.auto emptyDir oracle0
      = .error "Failed to initialize any authentication method" :=
  exhausted_strategies_raise_fixed_message cfg0 oracle0 emptyDir (by decide)

/-- C5 counterexample: in `YouTubeClientV2`, resolving with an expired,
refresh-capable persisted credential performs exactly one refresh and
returns the refreshed credential, but the store still holds the expired
blob afterwards — the refreshed blob is not persisted (the save sits only
in the acquisition branch). -/
theorem v2_refresh_success_not_persisted :
    tryOauthAuthV2 expiredTokenDir oracleRefreshOk
      = (some refreshedCred, [Ev.refreshCall], expiredTokenDir) ∧
    (tryOauthAuthV2 expiredTokenDir oracleRefreshOk).2.2.tokenPickle
      = some expiredCred ∧
    refreshedCred ≠ expiredCred := by
  refine ⟨by decide, by decide, by decide⟩

/-- C5 amended: an expired credential with refresh material triggers
exactly one refresh attempt in every client (a single `refresh` call in
the trace, never a loop); on success `YouTubeClient`, `YouTubeClientFull`
and `YouTubeAutopilot` persist the refreshed blob to the store before
returning, while `YouTubeClientV2` returns the refreshed credential but
leaves the store holding the expired blob. -/
theorem single_refresh_and_persistence (c c2 : Cred) (o : Oracle)
    (d : ConfigsDir) (hd : d.tokenPickle = some c) (hv : c.valid = false)
    (he : c.expired = true) (hr : c.refreshToken = true)
    (ho : o.refreshResult c = some c2) :
    getCredentials d o
      = .ok (some c2, [Ev.refreshCall, Ev.storeWrite c2.blob],
             { d with tokenPickle := some c2 }) ∧
    authenticateFull d o
      = (true, [Ev.refreshCall, Ev.storeWrite c2.blob],
         { d with tokenPickle := some c2 }) ∧
    (d.clientSecrets = true →
      initializeOauthAP d o
        = (true, [Ev.refreshCall, Ev.storeWrite c2.blob],
           { d with tokenPickle := some c2 })) ∧
    tryOauthAuthV2 d o = (some c2, [Ev.refreshCall], d) := by
  refine ⟨?_, ?_, fun hcs => ?_, ?_⟩
  · simp [getCredentials, hd, hv, he, hr, ho]
  · simp [authenticateFull, hd, hv, he, hr, ho]
  · simp [initializeOauthAP, hd, hv, he, hr, ho, hcs]
  · simp [tryOauthAuthV2, hd, hv, he, hr, ho]

/-- Witness for the amended C5 at a concrete expired credential. -/
theorem single_refresh_and_persistence_witness :
    getCredentials expiredTokenDir oracleRefreshOk
      = .ok (some refreshedCred,
             [Ev.refreshCall, Ev.storeWrite refreshedCred.blob],
             { expiredTokenDir with tokenPickle := some refreshedCred }) :=
  (single_refresh_and_persistence expiredCred refreshedCred oracleRefreshOk
      expiredTokenDir rfl rfl rfl rfl rfl).1

/-- C6 counterexample: in `YouTubeClient`, a denied refresh raises out of
`_get_credentials` as the overall failure even though `client_secrets.json`
is present and the acquisition flow would succeed — the strategy does not
fall through to acquisition, and the refresh failure is surfaced alone. -/
theorem client_refresh_denied_propagates :
    getCredentials expiredTokenDir oracleDenyThenFlow = .error () ∧
    expiredTokenDir.clientSecrets = true ∧
    oracleDenyThenFlow.flowResult = some flowCred := by
  refine ⟨rfl, rfl, rfl⟩

/-- C6 amended: in `YouTubeClientV2` and `YouTubeAutopilot` a denied
refresh falls through to full acquisition within the same resolve call and
the refresh error is not surfaced (the outcome is acquisition's), but in
`YouTubeClient` the unguarded refresh propagates the refresh failure as
the overall failure without attempting acquisition. -/
theorem refresh_denied_falls_through (c c2 : Cred) (o : Oracle)
    (d : ConfigsDir) (hd : d.tokenPickle = some c) (hv : c.valid = false)
    (he : c.expired = true) (hr : c.refreshToken = true)
    (ho : o.refreshResult c = none) (hcs : d.clientSecrets = true)
    (hf : o.flowResult = some c2) :
    tryOauthAuthV2 d o
      = (some c2, [Ev.refreshCall, Ev.flowCall, Ev.storeWrite c2.blob],
         { d with tokenPickle := some c2 }) ∧
    initializeOauthAP d o
      = (true, [Ev.refreshCall, Ev.flowCall, Ev.storeWrite c2.blob],
         { d with tokenPickle := some c2 }) ∧
    getCredentials d o = .error () := by
  refine ⟨?_, ?_, ?_⟩
  · simp [tryOauthAuthV2, v2Acquire, hd, hv, he, hr, ho, hcs, hf]
  · simp [initializeOauthAP, apOauthFlow, hd, hv, he, hr, ho, hcs, hf]
  · simp [getCredentials, hd, hv, he, hr, ho]

/-- Witness for the amended C6 at a concrete denied refresh. -/
theorem refresh_denied_falls_through_witness :
    tryOauthAuthV2 expiredTokenDir oracleDenyThenFlow
      = (some flowCred, [Ev.refreshCall, Ev.flowCall,
          Ev.storeWrite flowCred.blob],
         { expiredTokenDir with tokenPickle := some flowCred }) :=
  (refresh_denied_falls_through expiredCred flowCred oracleDenyThenFlow
      expiredTokenDir rfl rfl rfl rfl rfl rfl rfl).1

/-- C7: a restored credential that is valid is returned as-is: no refresh,
no acquisition, no store write (empty event trace), the store is
unchanged, and hence a second resolve performs the same zero network calls
and returns the same credential. -/
theorem valid_credential_reused_without_io (c : Cred) (o : Oracle)
    (d : ConfigsDir) (hd : d.tokenPickle = some c) (hv : c.valid = true) :
    getCredentials d o = .ok (some c, [], d) ∧
    tryOauthAuthV2 d o = (some c, [], d) ∧
    authenticateFull d o = (true, [], d) ∧
    getCredentials (tryOauthAuthV2 d o).2.2 o = getCredentials d o := by
  have h2 : tryOauthAuthV2 d o = (some c, [], d) := by
    simp [tryOauthAuthV2, hd, hv]
  exact ⟨by simp [getCredentials, hd, hv], h2,
         by simp [authenticateFull, hd, hv], by rw [h2]⟩

/-- Witness for C7 at a concrete valid cached credential. -/
theorem valid_credential_reused_witness :
    getCredentials validTokenDir oracle0
      = .ok (some validCred, [], validTokenDir) :=
  (valid_credential_reused_without_io validCred oracle0 validTokenDir rfl rfl).1

/-- C8 counterexample: the credential save performed by the clients is not
a write-to-temp-then-rename: it contains no rename at all and writes
directly at the well-known path, and interrupting it right after the
truncating open leaves the well-known path holding an empty (partial)
file — neither the old nor the new blob. -/
theorem credential_save_not_temp_rename :
    isTempRenameSave (saveCredentialOps "token.pickle" "CREDS")
      "token.pickle" = false ∧
    ((saveCredentialOps "token.pickle" "CREDS").all
      (fun op => ! FsOp.isRename op)) = true ∧
    runOps (fun p => if p = "token.pickle" then some "OLD" else none)
        [FsOp.openWrite "token.pickle"] "token.pickle" = some "" ∧
    [FsOp.openWrite "token.pickle"] ++ [FsOp.writeData "token.pickle" "CREDS"]
      = saveCredentialOps "token.pickle" "CREDS" := by
  refine ⟨by decide, by decide, by decide, by decide⟩

/-- C8 amended: every persistence is a direct truncating overwrite of the
well-known path (open-for-write then write, no temporary file and no
rename); an uninterrupted save leaves the blob at the path, but the prefix
cut after the truncating open leaves an empty file there. -/
theorem credential_save_direct_overwrite (path blob : String)
    (fs : String → Option String) :
    runOps fs (saveCredentialOps path blob) path = some blob ∧
    ((saveCredentialOps path blob).all (fun op => ! FsOp.isRename op)) = true ∧
    runOps fs [FsOp.openWrite path] path = some "" := by
  refine ⟨?_, rfl, ?_⟩
  · simp [saveCredentialOps, runOps, runOp]
  · simp [runOps, runOp]

/-- C9 counterexample: saving an API key whose bytes include surrounding
whitespace and loading it back returns the stripped string, not a
byte-identical blob. -/
theorem api_key_roundtrip_strips_whitespace :
    load_api_key (save_api_key emptyDir " AIzaKey\n") = some "AIzaKey" ∧
    (" AIzaKey\n" : String) ≠ "AIzaKey" := by
  refine ⟨by decide, by decide⟩

/-- C9 amended: the save/load round trip for the API-key store entry
returns the saved blob with surrounding whitespace stripped; it is
byte-identical exactly for blobs with no leading or trailing
whitespace. -/
theorem api_key_roundtrip_trimmed (d : ConfigsDir) (k : String) :
    load_api_key (save_api_key d k) = some (pyStrip k) ∧
    (pyStrip k = k → load_api_key (save_api_key d k) = some k) := by
  refine ⟨rfl, fun h => ?_⟩
  simp [load_api_key, save_api_key, h]

/-- Witness for the amended C9 at a whitespace-free key. -/
theorem api_key_roundtrip_witness :
    load_api_key (save_api_key emptyDir "AIzaTestKey") = some "AIzaTestKey" :=
  (api_key_roundtrip_trimmed emptyDir "AIzaTestKey").2 (by decide)

/-- C10: an explicitly configured strategy name outside the recognized set
raises `ValueError` in both clients — `YouTubeClientV2._authenticate`
rejects anything but "oauth"/"service_account"/"auto" (including
"api_key", which only the autopilot recognizes), and the autopilot's
config conversion `AuthMethod(value)` rejects anything outside its four
values — instead of falling back to the auto order or attempting any
strategy. -/
theorem invalid_auth_method_raises (m : String) (d : ConfigsDir) (o : Oracle)
    (h1 : m ≠ "oauth") (h2 : m ≠ "api_key") (h3 : m ≠ "service_account")
    (h4 : m ≠ "auto") :
    authenticateV2 m d o = .error ("Invalid auth_method: " ++ m) ∧
    APMethod.ofString m = .error (m ++ " is not a valid AuthMethod") ∧
    authenticateV2 "api_key" d o
      = .error ("Invalid auth_method: " ++ "api_key") := by
  refine ⟨?_, ?_, rfl⟩
  · simp [authenticateV2, h1, h3, h4]
  · simp [APMethod.ofString, h1, h2, h3, h4]

/-- Witness for C10 at the unrecognized method name "basic". -/
theorem invalid_auth_method_witness :
    authenticateV2 "basic" emptyDir oracle0
      = .error ("Invalid auth_method: " ++ "basic") :=
  (invalid_auth_method_raises "basic" emptyDir oracle0 (by decide) (by decide)
      (by decide) (by decide)).1
